import Mathlib

/-!
Shallow embedding of the MCP Keywords Everywhere gateway
(repository mcp-keywords-everywhere, file src/index.js), covering the
request/response session and protocol state machine:

* the JSON-RPC request/response envelope model and the method dispatcher
  processMcpRequest (src/index.js lines 1461-1655);
* the HTTP POST /mcp handler: protocol version check, session resolution,
  batch handling (lines 1295-1438);
* the DELETE /mcp handler (lines 1263-1292);
* the upstream API client makeApiCall with its 429 retry loop
  (lines 476-555) and the credential resolution getApiKey (lines 20-25);
* an event-level model of the process-global requestApiKey variable
  under interleaved request handling (lines 20, 1304-1310).

Conventions: JavaScript string truthiness makes an absent header and an
empty-string header indistinguishable everywhere this code inspects one
(always through bare truthiness tests), so headers are modelled as plain
strings with the empty string standing for an absent header.  Machine
integers do not overflow in any of the modelled code paths, so numbers are
Nat and Int.  The upstream HTTP exchange performed by axios is external
nondeterminism and enters the model as an oracle argument.
-/

namespace KE

/-- JSON-RPC request identifier as the JavaScript value found in
request.id: undefined (field absent), null, a number, or a string. -/
inductive ReqId where
  | undef
  | jnull
  | num (n : Int)
  | str (s : String)
  deriving DecidableEq, Repr

/-- Line 1464 of src/index.js: request.id is compared with undefined and
with null to decide whether the request is a notification. -/
def ReqId.isAbsent : ReqId → Bool
  | .undef => true
  | .jnull => true
  | _ => false

/-- JSON-RPC request as consumed by processMcpRequest: identifier, method
name, and the tool name carried in the parameters (params.name for the
method tools/call, params.tool for the method invoke; ignored by the other
methods).  The tool arguments themselves are only forwarded to the handler
and are absorbed into the handler oracle. -/
structure Request where
  id : ReqId
  method : String
  toolName : String
  deriving DecidableEq, Repr

/-- JSON-RPC error object: code and message (src/index.js builds these
inline at each error return). -/
structure ErrorObj where
  code : Int
  message : String
  deriving DecidableEq, Repr

/-- One entry of the static TOOLS registry (src/index.js lines 196-468):
name, description, and the required parameter names of its input schema. -/
structure ToolDef where
  name : String
  description : String
  required : List String
  deriving DecidableEq, Repr

/-- The tools/list result entry built at lines 1509-1520 (name, description
and the schema's required list; property descriptions are carried verbatim
from the registry and elided here). -/
structure ToolInfo where
  name : String
  description : String
  required : List String
  deriving DecidableEq, Repr

/-- Result object of a JSON-RPC success response, per method:
initialize returns protocolVersion, a constant capabilities object and
serverInfo (lines 1492-1505); tools/list returns the registry listing
(lines 1522-1528); tools/call and invoke return a content block with a
single text entry and an optional isError flag (lines 1567-1583 and
1625-1632) — the flag is absent on a tools/call success, true on a caught
tools/call failure, false on an invoke success. -/
inductive ResultBody where
  | initResult (protocolVersion : String) (serverName : String) (serverVersion : String)
  | toolsList (tools : List ToolInfo)
  | toolContent (text : String) (isErrorFlag : Option Bool)
  deriving DecidableEq, Repr

/-- A JSON-RPC response carries exactly one of a result or an error. -/
inductive Payload where
  | result (r : ResultBody)
  | error (e : ErrorObj)
  deriving DecidableEq, Repr

/-- Full JSON-RPC response envelope: protocol marker, echoed identifier,
and the payload. -/
structure Envelope where
  jsonrpc : String
  id : ReqId
  payload : Payload
  deriving DecidableEq, Repr

/-- The static TOOLS registry of src/index.js lines 196-468, in
registration (source) order. -/
def TOOLS : List ToolDef :=
  [ { name := "get_credits",
      description := "Get your account's credit balance", required := [] },
    { name := "get_countries",
      description := "Get list of supported countries", required := [] },
    { name := "get_currencies",
      description := "Get list of supported currencies", required := [] },
    { name := "get_keyword_data",
      description := "Get Volume, CPC and competition for a set of keywords",
      required := ["keywords"] },
    { name := "get_related_keywords",
      description := "Get related keywords based on a seed keyword",
      required := ["keyword"] },
    { name := "get_pasf_keywords",
      description := "Get 'People Also Search For' keywords based on a seed keyword",
      required := ["keyword"] },
    { name := "get_domain_keywords",
      description := "Get keywords that a domain ranks for",
      required := ["domain"] },
    { name := "get_url_keywords",
      description := "Get keywords that a URL ranks for",
      required := ["url"] },
    { name := "get_domain_traffic",
      description := "Get traffic metrics for a domain",
      required := ["domain"] },
    { name := "get_url_traffic",
      description := "Get traffic metrics for a URL",
      required := ["url"] },
    { name := "get_domain_backlinks",
      description := "Get backlinks for a domain",
      required := ["domain"] },
    { name := "get_unique_domain_backlinks",
      description := "Get unique domain backlinks",
      required := ["domain"] },
    { name := "get_page_backlinks",
      description := "Get backlinks for a specific URL",
      required := ["url"] },
    { name := "get_unique_page_backlinks",
      description := "Get unique backlinks for a specific URL",
      required := ["url"] } ]

/-- Own-property lookup in the TOOLS registry by name: the tool the
source registered under the name, if any.  The source indexes the plain
object literal TOOLS with the name, which additionally walks the
prototype chain; that inherited part is toolLookupTruthy below. -/
def findTool (n : String) : Option ToolDef :=
  TOOLS.find? (fun t => t.name = n)

/-- The own keys of the handlers object of src/index.js lines 558-673,
in source order.  These are exactly the registry names; the source
nevertheless looks the handler up separately, so the model does too. -/
def handlerNames : List String :=
  [ "get_credits", "get_countries", "get_currencies", "get_keyword_data",
    "get_related_keywords", "get_pasf_keywords", "get_domain_keywords",
    "get_url_keywords", "get_domain_traffic", "get_url_traffic",
    "get_domain_backlinks", "get_unique_domain_backlinks",
    "get_page_backlinks", "get_unique_page_backlinks" ]

/-- The property names every plain JavaScript object literal inherits
from Object.prototype (all bound to functions, hence truthy), together
with the accessor named by two underscores, proto and two underscores
(which yields Object.prototype itself, also truthy).  Indexing TOOLS or
handlers with one of these names walks the prototype chain and yields a
truthy value even though no tool is registered under the name. -/
def protoNames : List String :=
  [ "constructor", "hasOwnProperty", "isPrototypeOf", "propertyIsEnumerable",
    "toLocaleString", "toString", "valueOf", "__proto__",
    "__defineGetter__", "__defineSetter__", "__lookupGetter__",
    "__lookupSetter__" ]

/-- JavaScript truthiness of the lookup TOOLS[name] performed at
src/index.js lines 1540 and 1592: true for a registered tool and for
every property inherited from Object.prototype. -/
def toolLookupTruthy (n : String) : Bool :=
  (findTool n).isSome || protoNames.contains n

/-- JavaScript truthiness of the lookup handlers[name] performed at
src/index.js lines 1552 and 1606: true for a registered handler and for
every property inherited from Object.prototype. -/
def handlerLookupTruthy (n : String) : Bool :=
  handlerNames.contains n || protoNames.contains n

/-- Outcome of running a tool handler (the upstream call followed by
formatResponse): either the formatted display text, or the message of the
failure the handler raised.  The upstream exchange is external, so this is
an oracle parameter of the dispatcher. -/
inductive ToolOutcome where
  | ok (text : String)
  | fail (msg : String)
  deriving DecidableEq, Repr

/-- The tools/list listing built from the registry at lines 1509-1520. -/
def toolsListing : List ToolInfo :=
  TOOLS.map (fun t => { name := t.name, description := t.description, required := t.required })

/-- Response envelope with an error payload, the literal shape repeated at
each error return of processMcpRequest. -/
def mkError (id : ReqId) (code : Int) (msg : String) : Envelope :=
  { jsonrpc := "2.0", id := id, payload := .error { code := code, message := msg } }

/-- Response envelope with a result payload. -/
def mkResult (id : ReqId) (r : ResultBody) : Envelope :=
  { jsonrpc := "2.0", id := id, payload := .result r }

/-- The processMcpRequest dispatcher of src/index.js lines 1461-1655.
Returns none for a notification (id undefined or null, line 1464),
otherwise exactly one envelope.  The exec oracle gives the outcome of
whatever the execution step calls: the registered handler for a
registered name, or the member inherited from Object.prototype for an
inherited name (the truthy lookups skip both not-found checks there).
Branches in source order: initialize, tools/list, tools/call, invoke,
and the method-not-supported fallthrough. -/
def processMcpRequest (exec : String → ToolOutcome) (request : Request) : Option Envelope :=
  if request.id = ReqId.undef ∨ request.id = ReqId.jnull then
    none
  else if request.method = "initialize" then
    some (mkResult request.id (.initResult "2025-06-18" "mcp-keywords-everywhere" "1.1.0"))
  else if request.method = "tools/list" then
    some (mkResult request.id (.toolsList toolsListing))
  else if request.method = "tools/call" then
    if toolLookupTruthy request.toolName = false then
      some (mkError request.id (-32601) ("Tool not found: " ++ request.toolName))
    else if handlerLookupTruthy request.toolName = false then
      some (mkError request.id (-32601)
        ("Handler not found for tool: " ++ request.toolName))
    else
      match exec request.toolName with
      | .ok text =>
          some (mkResult request.id (.toolContent text none))
      | .fail msg =>
          some (mkResult request.id (.toolContent ("Error: " ++ msg) (some true)))
  else if request.method = "invoke" then
    if toolLookupTruthy request.toolName = false then
      some (mkError request.id (-32601) ("Tool not found: " ++ request.toolName))
    else if handlerLookupTruthy request.toolName = false then
      some (mkError request.id (-32601)
        ("Handler not found for tool: " ++ request.toolName))
    else
      match exec request.toolName with
      | .ok text =>
          some (mkResult request.id (.toolContent text (some false)))
      | .fail msg =>
          some (mkError request.id (-32603) msg)
  else
    some (mkError request.id (-32601) ("Method not supported: " ++ request.method))

/-- The session map of src/index.js line 829 (a JavaScript Map from
session identifier to a session object holding the identifier and its
creation timestamp), as an association list.  Map.set keeps keys unique,
so on every reachable map each key occurs at most once. -/
abbrev SessionMap : Type := List (String × Nat)

/-- Membership test, the sessions.has of the source. -/
def hasSession (sessions : SessionMap) (sid : String) : Bool :=
  sessions.any (fun e => e.1 = sid)

/-- Map.set: replace the entry of an existing key, else append. -/
def setSession (sessions : SessionMap) (sid : String) (createdAt : Nat) : SessionMap :=
  if hasSession sessions sid then
    sessions.map (fun e => if e.1 = sid then (sid, createdAt) else e)
  else
    sessions ++ [(sid, createdAt)]

/-- Map.delete: remove the entry of the key (keys are unique on reachable
maps, so removing every match agrees with the JavaScript Map). -/
def deleteSession (sessions : SessionMap) (sid : String) : SessionMap :=
  sessions.filter (fun e => e.1 ≠ sid)

/-- Request body of a POST /mcp call: a single JSON-RPC request or an
ordered batch (line 1370 tests Array.isArray). -/
inductive Body where
  | single (r : Request)
  | batch (rs : List Request)
  deriving DecidableEq, Repr

/-- The req.body.id read at line 1329: a batch (array) has no id field, so
the JavaScript value is undefined. -/
def Body.topId : Body → ReqId
  | .single r => r.id
  | .batch _ => ReqId.undef

/-- The req.body.method read at line 1343: a batch (array) has no method
field, so the JavaScript value is undefined, which compares unequal to the
string of the method initialize.  The empty string plays undefined here;
no request method in the dispatch is the empty string. -/
def Body.topMethod : Body → String
  | .single r => r.method
  | .batch _ => ""

/-- Body of an HTTP response produced by the /mcp handlers: empty
(res.status(...).end()), a single JSON-RPC envelope, an array of envelopes
(batch), a bare error object without jsonrpc marker or id (the literal
json({error:{code,message}}) shape of lines 1269-1274, 1285-1290,
1350-1355 and 1358-1363), or the status-ok object of line 1280-1283. -/
inductive HttpBody where
  | empty
  | envelope (e : Envelope)
  | envelopes (es : List Envelope)
  | bareError (code : Int) (message : String)
  | okStatus (message : String)
  deriving DecidableEq, Repr

/-- HTTP response: status code, the optional Mcp-Session-Id response
header, and the body. -/
structure HttpResponse where
  status : Nat
  sessionHeader : Option String
  body : HttpBody
  deriving DecidableEq, Repr

/-- Outcome of the session resolution block at lines 1337-1364. -/
inductive SessionOutcome where
  | proceed (sessions : SessionMap) (sessionId : String)
  | notFound
  | required
  deriving DecidableEq, Repr

/-- Session resolution, src/index.js lines 1337-1364, with the branch
structure of the source: a truthy (non-empty) known identifier resolves; a
missing identifier on the method initialize mints the fresh identifier of
generateSessionId (unguessable; a parameter here) at the current time; any
other truthy identifier is unknown; otherwise the identifier is missing on
a non-initialize method. -/
def resolveSession (sessions : SessionMap) (fresh : String) (now : Nat)
    (sid : String) (method : String) : SessionOutcome :=
  if sid ≠ "" ∧ hasSession sessions sid then
    .proceed sessions sid
  else if sid = "" ∧ method = "initialize" then
    .proceed (setSession sessions fresh now) fresh
  else if sid ≠ "" then
    .notFound
  else
    .required

/-- Method dispatch over an already resolved session, lines 1366-1428.  A
batch is processed sequentially and only non-null responses are collected
(lines 1370-1402); the Mcp-Session-Id response header is attached when the
batch contains an initialize request, or when the single request's method
is initialize (lines 1396-1399 and 1408-1411); a single request that
produced no response (a notification) yields status 202 with an empty body
(line 1416). -/
def dispatchBody (exec : String → ToolOutcome) (sessionId : String) : Body → HttpResponse
  | .batch rs =>
      { status := 200,
        sessionHeader :=
          if rs.any (fun r => r.method = "initialize") then some sessionId else none,
        body := .envelopes (rs.filterMap (processMcpRequest exec)) }
  | .single r =>
      let hdr := if r.method = "initialize" then some sessionId else none
      match processMcpRequest exec r with
      | some e => { status := 200, sessionHeader := hdr, body := .envelope e }
      | none => { status := 202, sessionHeader := hdr, body := .empty }

/-- The session-resolution-and-dispatch stage of the POST /mcp handler,
src/index.js lines 1337-1428: session resolution (a failure answers 404
or 400 with a bare error object carrying only code and message), then
method dispatch over the resolved session.  Returns the session map after
the call and the HTTP response. -/
def handleResolved (exec : String → ToolOutcome) (fresh : String) (now : Nat)
    (sessions : SessionMap) (sid : String) (body : Body) :
    SessionMap × HttpResponse :=
  match resolveSession sessions fresh now sid body.topMethod with
  | .proceed sessions2 sid2 => (sessions2, dispatchBody exec sid2 body)
  | .notFound =>
      (sessions,
        { status := 404, sessionHeader := none,
          body := .bareError (-32000) "Session not found" })
  | .required =>
      (sessions,
        { status := 400, sessionHeader := none,
          body := .bareError (-32002) "Session ID required" })

/-- The POST /mcp handler, src/index.js lines 1295-1438, without the
analytics side channel: the protocol version check of lines 1322-1335
(any truthy version the accepted calendar family is no initial segment of
is rejected with a -32600 envelope before any session work), then the
session-resolution-and-dispatch stage. -/
def handlePost (exec : String → ToolOutcome) (fresh : String) (now : Nat)
    (sessions : SessionMap) (pv : String) (sid : String) (body : Body) :
    SessionMap × HttpResponse :=
  if pv ≠ "" ∧ ¬ ("2025-".data.isPrefixOf pv.data) then
    (sessions,
      { status := 400, sessionHeader := none,
        body := .envelope (mkError body.topId (-32600)
          ("Unsupported protocol version: " ++ pv)) })
  else
    handleResolved exec fresh now sessions sid body

/-- The DELETE /mcp handler, src/index.js lines 1263-1292: a missing
(empty) Mcp-Session-Id header answers 400 with code -32002; a known
identifier is removed from the map and answers 200 with a status-ok body;
an unknown identifier answers 404 with code -32000. -/
def handleDelete (sessions : SessionMap) (sid : String) : SessionMap × HttpResponse :=
  if sid = "" then
    (sessions,
      { status := 400, sessionHeader := none,
        body := .bareError (-32002) "Session ID required" })
  else if hasSession sessions sid then
    (deleteSession sessions sid,
      { status := 200, sessionHeader := none,
        body := .okStatus "Session terminated successfully" })
  else
    (sessions,
      { status := 404, sessionHeader := none,
        body := .bareError (-32000) "Session not found" })

/-- One simulated upstream answer to an HTTP attempt by the API client:
an axios success (2xx, carrying response data), or an axios failure with
the HTTP status (none for a network fault without a response) and the
best-available upstream message. -/
inductive UpResp where
  | success (data : String)
  | failure (status : Option Nat) (msg : String)
  deriving DecidableEq, Repr

/-- The typed errors thrown by makeApiCall (src/index.js lines 479,
534-537, 539, 548, 552): missing key, enhanced 400, fixed 401, terminal
429 after exhausted retries, and the generic API error carrying the
status (none rendered as unknown) and upstream message. -/
inductive ApiError where
  | noApiKey
  | badRequest (message : String)
  | authFailed
  | rateLimited
  | apiError (status : Option Nat) (message : String)
  deriving DecidableEq, Repr

/-- The exact Error message text the source attaches to each typed
error. -/
def ApiError.text : ApiError → String
  | .noApiKey => "No API key available. Please provide your Keywords Everywhere API key via URL query param (?apiKey=YOUR_KEY) or contact the server administrator."
  | .badRequest m => m
  | .authFailed => "Authentication failed (401): Please check your API key"
  | .rateLimited => "Rate limit exceeded (429): Too many requests. Please try again later."
  | .apiError status m =>
      "API Error (" ++ (match status with | some n => toString n | none => "unknown") ++ "): " ++ m

/-- JavaScript String.prototype.includes as used at lines 526-531. -/
def containsSub (s sub : String) : Bool :=
  2 ≤ (s.splitOn sub).length

/-- The heuristic guidance added to a 400 message, src/index.js lines
521-533: advisory text appended when the upstream message mentions
credits, subscription plans, or rate limits. -/
def enhance400 (errorMessage : String) : String :=
  let base := "Bad Request (400): " ++ errorMessage
  if containsSub errorMessage "credit" || containsSub errorMessage "credits" then
    base ++ ". You may need to add more credits to your Keywords Everywhere account."
  else if containsSub errorMessage "subscription" || containsSub errorMessage "plan" then
    base ++ ". This may be due to a subscription plan limitation. Please check your current plan."
  else if containsSub errorMessage "limit" || containsSub errorMessage "rate" then
    base ++ ". You may have hit a rate limit. Try again later."
  else
    base

/-- Result of one makeApiCall run over simulated upstream answers: the
value or typed error, the number of HTTP attempts actually issued, and
the list of backoff delays slept before each retry, in order, in
time-units of one second (the source sleeps Math.pow(2, retryCount)
seconds, lines 542-545). -/
structure CallResult where
  outcome : Except ApiError String
  attempts : Nat
  delays : List Nat
  deriving Repr

/-- The makeApiCall retry loop of src/index.js lines 476-555.  The
resolved API key is checked before any HTTP work (line 478); the
simulated upstream answers the attempt numbered retryCount (the initial
call passes 0 and each retry increments it, line 546).  A 400 answer is
translated to the enhanced bad-request error, a 401 to the fixed
authentication error, a 429 is retried while retryCount is below 3 after
a backoff of 2 to the power retryCount time-units and becomes the
terminal rate-limit error once retries are exhausted, and any other
failure becomes the generic API error, all without retry. -/
def makeApiCall (apiKey : Option String) (resps : Nat → UpResp) (retryCount : Nat) :
    CallResult :=
  match apiKey with
  | none => { outcome := .error .noApiKey, attempts := 0, delays := [] }
  | some _ =>
    match resps retryCount with
    | .success d => { outcome := .ok d, attempts := 1, delays := [] }
    | .failure statusCode errorMessage =>
      if statusCode = some 400 then
        { outcome := .error (.badRequest (enhance400 errorMessage)),
          attempts := 1, delays := [] }
      else if statusCode = some 401 then
        { outcome := .error .authFailed, attempts := 1, delays := [] }
      else if statusCode = some 429 then
        if h : retryCount < 3 then
          let r := makeApiCall apiKey resps (retryCount + 1)
          { outcome := r.outcome, attempts := r.attempts + 1,
            delays := 2 ^ retryCount :: r.delays }
        else
          { outcome := .error .rateLimited, attempts := 1, delays := [] }
      else
        { outcome := .error (.apiError statusCode errorMessage),
          attempts := 1, delays := [] }
termination_by 3 - retryCount
decreasing_by omega

/-- Credential resolution, src/index.js lines 22-25: the per-request key
when one is set, else the process-wide default from the environment. -/
def getApiKey (requestApiKey defaultApiKey : Option String) : Option String :=
  match requestApiKey with
  | some k => some k
  | none => defaultApiKey

/-- One atomic access to the process-global requestApiKey variable (line
20), tagged with the HTTP request performing it: the POST handler's
assignment (lines 1304-1310, which stores the caller key or resets the
variable to null), or the read getApiKey performs at the start of one
makeApiCall attempt (line 477).  Between two accesses of the same
request lies an await (the axios exchange or a retry backoff), so the
Node event loop may run accesses of another request in between; a list
of events is one such interleaving. -/
inductive CredEvent where
  | setKey (r : Nat) (userApiKey : Option String)
  | readKey (r : Nat)
  deriving DecidableEq, Repr

/-- Runs an interleaving of credential accesses over the shared global
(g is the current value of requestApiKey) and records, per read, which
request read and which resolved key its upstream attempt was authorized
with. -/
def runCred (defaultApiKey : Option String) (g : Option String) :
    List CredEvent → List (Nat × Option String)
  | [] => []
  | CredEvent.setKey _ k :: rest => runCred defaultApiKey k rest
  | CredEvent.readKey r :: rest =>
      (r, getApiKey g defaultApiKey) :: runCred defaultApiKey g rest

/-- The resolved keys request r was authorized with, in order of its
upstream attempts. -/
def readsOf (r : Nat) (log : List (Nat × Option String)) : List (Option String) :=
  (log.filter (fun e => e.1 = r)).map (fun e => e.2)

/-- Whether an HTTP body is a single JSON-RPC envelope. -/
def HttpBody.isJsonRpcEnvelope : HttpBody → Bool
  | .envelope _ => true
  | _ => false

/-- Whether a response payload is a JSON-RPC protocol-level error (an
error object rather than a result). -/
def Payload.isProtocolError : Payload → Bool
  | .error _ => true
  | .result _ => false

/-- Handler oracle whose every tool call succeeds with a fixed text. -/
def exec0 : String → ToolOutcome := fun _ => ToolOutcome.ok "ok"

/-- Handler oracle whose every tool call raises a failure with message
boom (simulating an upstream failure surfaced by the handler). -/
def execBoom : String → ToolOutcome := fun _ => ToolOutcome.fail "boom"

/-- Simulated upstream answers: HTTP 429 to the first two attempts, then
success. -/
def seq429x2 : Nat → UpResp := fun k =>
  if k < 2 then .failure (some 429) "Too many requests" else .success "data"

/-- Simulated upstream answers: HTTP 429 to every attempt (four
consecutive 429 answers are consumed before retries are exhausted). -/
def seq429x4 : Nat → UpResp := fun _ => .failure (some 429) "Too many requests"

/-- Every non-notification request gets exactly one envelope from the
dispatcher, with the protocol marker and the identifier echoed back
unchanged (every branch of processMcpRequest past the notification test
returns one such envelope). -/
theorem processMcpRequest_some (exec : String → ToolOutcome) (r : Request)
    (h : ¬(r.id = ReqId.undef ∨ r.id = ReqId.jnull)) :
    ∃ e, processMcpRequest exec r = some e ∧ e.jsonrpc = "2.0" ∧ e.id = r.id := by
  unfold processMcpRequest
  rw [if_neg h]
  repeat
    first
      | exact ⟨_, rfl, rfl, rfl⟩
      | split

/-- The TOOLS registry and the handlers object have exactly the same
keys, so the handler lookup after a successful registry lookup cannot
fail. -/
theorem findTool_isSome_iff (n : String) :
    (findTool n).isSome = true ↔ handlerNames.contains n = true := by
  constructor
  · intro h
    rcases hf : findTool n with _ | t
    · rw [hf] at h; simp at h
    · unfold findTool at hf
      have hmem := List.mem_of_find?_eq_some hf
      have hname := List.find?_some hf
      have hname2 : t.name = n := by simpa using hname
      subst hname2
      fin_cases hmem <;> decide
  · intro h
    have hmem : n ∈ handlerNames := by simpa using h
    fin_cases hmem <;> decide

/-- TOOLS and handlers have the same own keys and the same prototype, so
the two truthy lookups agree on every name: in particular the
handler-not-found branch is unreachable. -/
theorem toolLookupTruthy_eq (n : String) :
    toolLookupTruthy n = handlerLookupTruthy n := by
  unfold toolLookupTruthy handlerLookupTruthy
  have h := findTool_isSome_iff n
  cases hf : (findTool n).isSome <;> cases hh : handlerNames.contains n <;>
    simp_all

/-- The retry loop performs at most 3 - retryCount further retries. -/
theorem makeApiCall_delays_length (key : String) (resps : Nat → UpResp) (rc : Nat) :
    (makeApiCall (some key) resps rc).delays.length ≤ 3 - rc := by
  unfold makeApiCall
  rcases hr : resps rc with d | ⟨status, msg⟩
  · simp
  · by_cases h400 : status = some 400
    · simp [h400]
    · by_cases h401 : status = some 401
      · simp [h400, h401]
      · by_cases h429 : status = some 429
        · by_cases hlt : rc < 3
          · have ih := makeApiCall_delays_length key resps (rc + 1)
            dsimp only
            rw [if_neg h400, if_neg h401, if_pos h429, dif_pos hlt]
            simp only [List.length_cons]
            omega
          · simp [h400, h401, h429, hlt]
        · simp [h400, h401, h429]
termination_by 3 - rc
decreasing_by omega

/-- A first answer that is a failure other than 429 is translated
immediately: no retry, one attempt, and the typed error matching the
status. -/
theorem makeApiCall_no_retry (key : String) (resps : Nat → UpResp)
    (status : Option Nat) (msg : String)
    (hr : resps 0 = .failure status msg) (h429 : status ≠ some 429) :
    makeApiCall (some key) resps 0
      = { outcome := .error (.badRequest (enhance400 msg)), attempts := 1, delays := [] }
    ∨ makeApiCall (some key) resps 0
      = { outcome := .error .authFailed, attempts := 1, delays := [] }
    ∨ makeApiCall (some key) resps 0
      = { outcome := .error (.apiError status msg), attempts := 1, delays := [] } := by
  unfold makeApiCall
  rw [hr]
  by_cases h400 : status = some 400
  · left; simp [h400]
  · by_cases h401 : status = some 401
    · right; left; simp [h400, h401]
    · right; right; simp [h400, h401, h429]

/-- C3: only HTTP 429 answers are retried, with at most 3 retries and
backoff delays of 1, 2 and 4 time-units before the first, second and
third retry; the sequence 429, 429, 200 completes successfully after
exactly 2 retries; four consecutive 429 answers end in the terminal
rate-limit error after exactly 3 retries; any other failing answer is
translated to its typed error immediately with no retry. -/
theorem keC3_retryPolicy (key : String) (resps : Nat → UpResp)
    (status : Option Nat) (msg : String) :
    ((makeApiCall (some key) resps 0).delays.length ≤ 3) ∧
    (resps 0 = .failure status msg → status ≠ some 429 →
      (makeApiCall (some key) resps 0).delays = []
      ∧ (makeApiCall (some key) resps 0
            = { outcome := .error (.badRequest (enhance400 msg)),
                attempts := 1, delays := [] }
          ∨ makeApiCall (some key) resps 0
            = { outcome := .error .authFailed, attempts := 1, delays := [] }
          ∨ makeApiCall (some key) resps 0
            = { outcome := .error (.apiError status msg), attempts := 1, delays := [] })) ∧
    (makeApiCall (some key) seq429x2 0
        = { outcome := .ok "data", attempts := 3, delays := [1, 2] }) ∧
    (makeApiCall (some key) seq429x4 0
        = { outcome := .error .rateLimited, attempts := 4, delays := [1, 2, 4] }) := by
  refine ⟨?_, ?_, ?_, ?_⟩
  · have h := makeApiCall_delays_length key resps 0
    omega
  · intro hr h429
    rcases makeApiCall_no_retry key resps status msg hr h429 with h | h | h <;>
      rw [h] <;> exact ⟨rfl, by simp [h]⟩
  · simp [makeApiCall, seq429x2]
  · simp [makeApiCall, seq429x4]

/-- Witness for C3 at a concrete non-429 failure sequence. -/
theorem keC3_witness :
    (makeApiCall (some "K") (fun _ => .failure (some 401) "denied") 0).delays = []
    ∧ ((makeApiCall (some "K") (fun _ => .failure (some 401) "denied") 0).delays.length ≤ 3) := by
  have h := keC3_retryPolicy "K" (fun _ => .failure (some 401) "denied") (some 401) "denied"
  exact ⟨(h.2.1 rfl (by decide)).1, h.1⟩

/-- C7: a caller-supplied credential takes precedence over the
process-wide default; with neither present the upstream call fails with
the configuration error before issuing any HTTP attempt. -/
theorem keC7_credentialPrecedence (u d : String) (resps : Nat → UpResp) (rc : Nat) :
    getApiKey (some u) (some d) = some u
    ∧ getApiKey (some u) none = some u
    ∧ getApiKey none (some d) = some d
    ∧ makeApiCall (getApiKey none none) resps rc
        = { outcome := .error .noApiKey, attempts := 0, delays := [] } := by
  refine ⟨rfl, rfl, rfl, ?_⟩
  simp [makeApiCall, getApiKey]

/-- Witness for C7 at concrete keys and answers. -/
theorem keC7_witness :
    getApiKey (some "user") (some "def") = some "user"
    ∧ makeApiCall (getApiKey none none) (fun _ => .success "data") 0
        = { outcome := .error .noApiKey, attempts := 0, delays := [] } := by
  have h := keC7_credentialPrecedence "user" "def" (fun _ => .success "data") 0
  exact ⟨h.1, h.2.2.2⟩

/-- The interleaving of credential events behind the C6 defect: request 0
posts with key KA and its first upstream attempt is rate-limited, so it
awaits its retry backoff; meanwhile request 1 posts with key KB,
overwriting the process-global requestApiKey, and completes; request 0
then retries and reads the global again. -/
def trace6 : List CredEvent :=
  [ .setKey 0 (some "KA"), .readKey 0, .setKey 1 (some "KB"),
    .readKey 1, .readKey 0 ]

/-- C6 fails on the code: the resolved credential lives in the
process-global mutable requestApiKey, so in the interleaving trace6 the
second upstream attempt of request 0 is authorized with the key KB that
request 1 supplied, not with the key KA request 0 itself supplied. -/
theorem keC6_globalCredentialLeak :
    readsOf 0 (runCred none none trace6) = [some "KA", some "KB"]
    ∧ (some "KB" : Option String) ≠ some "KA" := by
  exact ⟨rfl, by decide⟩

/-- C10: the dispatcher treats a request as a notification (producing no
response envelope) exactly when its identifier is the JavaScript value
undefined or null; the identifier 0, the empty string, and every other
defined non-null identifier get a response envelope. -/
theorem keC10_identifierZero (exec : String → ToolOutcome) (r : Request) :
    processMcpRequest exec r = none ↔ (r.id = ReqId.undef ∨ r.id = ReqId.jnull) := by
  constructor
  · intro h
    by_contra hne
    obtain ⟨e, he, -, -⟩ := processMcpRequest_some exec r hne
    rw [he] at h
    cases h
  · intro h
    unfold processMcpRequest
    rw [if_pos h]

/-- Witness for C10: identifier 0 and the empty-string identifier get a
response, identifier null does not. -/
theorem keC10_witness :
    processMcpRequest exec0 { id := ReqId.num 0, method := "tools/list", toolName := "" } ≠ none
    ∧ processMcpRequest exec0 { id := ReqId.str "", method := "tools/list", toolName := "" } ≠ none
    ∧ processMcpRequest exec0 { id := ReqId.jnull, method := "tools/list", toolName := "" } = none := by
  refine ⟨?_, ?_, ?_⟩
  · intro h
    have := (keC10_identifierZero exec0
      { id := ReqId.num 0, method := "tools/list", toolName := "" }).mp h
    simp at this
  · intro h
    have := (keC10_identifierZero exec0
      { id := ReqId.str "", method := "tools/list", toolName := "" }).mp h
    simp at this
  · exact (keC10_identifierZero exec0
      { id := ReqId.jnull, method := "tools/list", toolName := "" }).mpr (Or.inr rfl)

/-- A missing protocol-version marker, or one from the accepted calendar
family, lets the POST handler proceed to session work. -/
theorem handlePost_accepted (exec : String → ToolOutcome) (fresh : String) (now : Nat)
    (sessions : SessionMap) (pv sid : String) (body : Body)
    (hpv : pv = "" ∨ "2025-".data.isPrefixOf pv.data) :
    handlePost exec fresh now sessions pv sid body
      = handleResolved exec fresh now sessions sid body := by
  unfold handlePost
  rcases hpv with h | h
  · rw [if_neg (by simp [h])]
  · rw [if_neg (by simp [h])]

/-- A non-empty protocol-version marker outside the accepted family is
rejected with the -32600 envelope, leaving the session map untouched. -/
theorem handlePost_rejected (exec : String → ToolOutcome) (fresh : String) (now : Nat)
    (sessions : SessionMap) (pv sid : String) (body : Body)
    (h1 : pv ≠ "") (h2 : ¬ ("2025-".data.isPrefixOf pv.data)) :
    handlePost exec fresh now sessions pv sid body
      = (sessions,
          { status := 400, sessionHeader := none,
            body := .envelope (mkError body.topId (-32600)
              ("Unsupported protocol version: " ++ pv)) }) := by
  unfold handlePost
  rw [if_pos ⟨h1, h2⟩]

/-- Session resolution, known identifier: proceed on the existing map. -/
theorem handleResolved_known (exec : String → ToolOutcome) (fresh : String) (now : Nat)
    (sessions : SessionMap) (sid : String) (body : Body)
    (h1 : sid ≠ "") (h2 : hasSession sessions sid = true) :
    handleResolved exec fresh now sessions sid body
      = (sessions, dispatchBody exec sid body) := by
  unfold handleResolved resolveSession
  rw [if_pos ⟨h1, h2⟩]

/-- Session resolution, no identifier on an initialize body: mint the
fresh session and proceed with it. -/
theorem handleResolved_mint (exec : String → ToolOutcome) (fresh : String) (now : Nat)
    (sessions : SessionMap) (sid : String) (body : Body)
    (h1 : sid = "") (h2 : body.topMethod = "initialize") :
    handleResolved exec fresh now sessions sid body
      = (setSession sessions fresh now, dispatchBody exec fresh body) := by
  unfold handleResolved resolveSession
  rw [if_neg (by simp [h1]), if_pos ⟨h1, h2⟩]

/-- Session resolution, unknown non-empty identifier: 404 with the bare
session-not-found error object. -/
theorem handleResolved_notFound (exec : String → ToolOutcome) (fresh : String) (now : Nat)
    (sessions : SessionMap) (sid : String) (body : Body)
    (h1 : sid ≠ "") (h2 : hasSession sessions sid = false) :
    handleResolved exec fresh now sessions sid body
      = (sessions, { status := 404, sessionHeader := none,
                     body := .bareError (-32000) "Session not found" }) := by
  unfold handleResolved resolveSession
  rw [if_neg (by simp [h2]), if_neg (by simp [h1]), if_pos h1]

/-- Session resolution, no identifier on a non-initialize body: 400 with
the bare session-required error object. -/
theorem handleResolved_required (exec : String → ToolOutcome) (fresh : String) (now : Nat)
    (sessions : SessionMap) (sid : String) (body : Body)
    (h1 : sid = "") (h2 : body.topMethod ≠ "initialize") :
    handleResolved exec fresh now sessions sid body
      = (sessions, { status := 400, sessionHeader := none,
                     body := .bareError (-32002) "Session ID required" }) := by
  unfold handleResolved resolveSession
  rw [if_neg (by simp [h1]), if_neg (by simp [h2]), if_neg (by simp [h1])]

/-- Dispatch of a single request that has a response envelope. -/
theorem dispatchBody_single_some (exec : String → ToolOutcome) (sid : String)
    (r : Request) (e : Envelope) (he : processMcpRequest exec r = some e) :
    dispatchBody exec sid (.single r)
      = { status := 200,
          sessionHeader := if r.method = "initialize" then some sid else none,
          body := .envelope e } := by
  unfold dispatchBody
  dsimp only
  rw [he]

/-- C1: with a compatible protocol version, session resolution on POST
/mcp admits exactly four cases: a known identifier proceeds with that
session; no identifier on the method initialize mints a fresh session and
proceeds; an unknown identifier terminates with the session-not-found
error; no identifier on any other method terminates with the
session-required error. -/
theorem keC1_sessionResolution (exec : String → ToolOutcome) (fresh : String) (now : Nat)
    (sessions : SessionMap) (sid : String) (r : Request) :
    (sid ≠ "" → hasSession sessions sid = true →
      handlePost exec fresh now sessions "" sid (.single r)
        = (sessions, dispatchBody exec sid (.single r))) ∧
    (sid = "" → r.method = "initialize" →
      handlePost exec fresh now sessions "" sid (.single r)
        = (setSession sessions fresh now, dispatchBody exec fresh (.single r))) ∧
    (sid ≠ "" → hasSession sessions sid = false →
      handlePost exec fresh now sessions "" sid (.single r)
        = (sessions, { status := 404, sessionHeader := none,
                       body := .bareError (-32000) "Session not found" })) ∧
    (sid = "" → r.method ≠ "initialize" →
      handlePost exec fresh now sessions "" sid (.single r)
        = (sessions, { status := 400, sessionHeader := none,
                       body := .bareError (-32002) "Session ID required" })) := by
  refine ⟨?_, ?_, ?_, ?_⟩ <;> intro h1 h2 <;>
    rw [handlePost_accepted exec fresh now sessions "" sid (.single r) (Or.inl rfl)]
  · exact handleResolved_known exec fresh now sessions sid (.single r) h1 h2
  · exact handleResolved_mint exec fresh now sessions sid (.single r) h1 h2
  · exact handleResolved_notFound exec fresh now sessions sid (.single r) h1 h2
  · exact handleResolved_required exec fresh now sessions sid (.single r) h1 h2

/-- Witness for C1 on a concrete map and requests, one instance per
case. -/
theorem keC1_witness :
    (handlePost exec0 "s1" 5 [("a", 0)] "" "a"
        (.single { id := ReqId.num 1, method := "tools/list", toolName := "" })
      = ([("a", 0)], dispatchBody exec0 "a"
          (.single { id := ReqId.num 1, method := "tools/list", toolName := "" })))
    ∧ (handlePost exec0 "s1" 5 [] "" ""
        (.single { id := ReqId.num 1, method := "initialize", toolName := "" })
      = ([("s1", 5)], dispatchBody exec0 "s1"
          (.single { id := ReqId.num 1, method := "initialize", toolName := "" })))
    ∧ (handlePost exec0 "s1" 5 [] "" "deadbeef"
        (.single { id := ReqId.num 1, method := "tools/list", toolName := "" })
      = ([], { status := 404, sessionHeader := none,
               body := .bareError (-32000) "Session not found" }))
    ∧ (handlePost exec0 "s1" 5 [] "" ""
        (.single { id := ReqId.num 1, method := "tools/list", toolName := "" })
      = ([], { status := 400, sessionHeader := none,
               body := .bareError (-32002) "Session ID required" })) := by
  refine ⟨?_, ?_, ?_, ?_⟩
  · exact (keC1_sessionResolution exec0 "s1" 5 [("a", 0)] "a"
      { id := ReqId.num 1, method := "tools/list", toolName := "" }).1
      (by decide) (by decide)
  · have h := (keC1_sessionResolution exec0 "s1" 5 [] ""
      { id := ReqId.num 1, method := "initialize", toolName := "" }).2.1 rfl rfl
    simpa [setSession, hasSession] using h
  · exact (keC1_sessionResolution exec0 "s1" 5 [] "deadbeef"
      { id := ReqId.num 1, method := "tools/list", toolName := "" }).2.2.1
      (by decide) (by decide)
  · exact (keC1_sessionResolution exec0 "s1" 5 [] ""
      { id := ReqId.num 1, method := "tools/list", toolName := "" }).2.2.2
      rfl (by decide)

/-- C5: a supplied (non-empty) protocol-version marker outside the
accepted calendar family terminates the POST with the -32600 envelope
before any session resolution or session creation (the session map is
returned untouched); an absent marker, or one from the accepted family,
proceeds to session work. -/
theorem keC5_protocolVersionGate (exec : String → ToolOutcome) (fresh : String) (now : Nat)
    (sessions : SessionMap) (pv sid : String) (body : Body) :
    (pv ≠ "" → ¬ ("2025-".data.isPrefixOf pv.data) →
      handlePost exec fresh now sessions pv sid body
        = (sessions,
            { status := 400, sessionHeader := none,
              body := .envelope (mkError body.topId (-32600)
                ("Unsupported protocol version: " ++ pv)) })) ∧
    ("2025-".data.isPrefixOf pv.data →
      handlePost exec fresh now sessions pv sid body
        = handleResolved exec fresh now sessions sid body) ∧
    (handlePost exec fresh now sessions "" sid body
        = handleResolved exec fresh now sessions sid body) := by
  refine ⟨?_, ?_, ?_⟩
  · intro h1 h2
    exact handlePost_rejected exec fresh now sessions pv sid body h1 h2
  · intro h
    exact handlePost_accepted exec fresh now sessions pv sid body (Or.inr h)
  · exact handlePost_accepted exec fresh now sessions "" sid body (Or.inl rfl)

/-- Witness for C5: version 1.0 is rejected without touching the session
map, version 2025-06-18 and the absent marker proceed. -/
theorem keC5_witness :
    (handlePost exec0 "s1" 5 [("a", 0)] "1.0" "a"
        (.single { id := ReqId.num 1, method := "tools/list", toolName := "" })
      = ([("a", 0)],
          { status := 400, sessionHeader := none,
            body := .envelope (mkError (ReqId.num 1) (-32600)
              "Unsupported protocol version: 1.0") }))
    ∧ (handlePost exec0 "s1" 5 [("a", 0)] "2025-06-18" "a"
        (.single { id := ReqId.num 1, method := "tools/list", toolName := "" })
      = handleResolved exec0 "s1" 5 [("a", 0)] "a"
          (.single { id := ReqId.num 1, method := "tools/list", toolName := "" })) := by
  have h := keC5_protocolVersionGate exec0 "s1" 5 [("a", 0)] "1.0" "a"
    (.single { id := ReqId.num 1, method := "tools/list", toolName := "" })
  have h2 := keC5_protocolVersionGate exec0 "s1" 5 [("a", 0)] "2025-06-18" "a"
    (.single { id := ReqId.num 1, method := "tools/list", toolName := "" })
  exact ⟨h.1 (by decide) (by decide), h2.2.1 (by decide)⟩

/-- Deleting a session identifier removes it from the map. -/
theorem hasSession_deleteSession (sessions : SessionMap) (sid : String) :
    hasSession (deleteSession sessions sid) sid = false := by
  simp [hasSession, deleteSession, List.any_eq_true, List.mem_filter]

/-- C9: DELETE /mcp with no session header answers the missing-parameter
error; with an identifier absent from the map it answers session-not-found
and leaves the map unchanged, so a repeated DELETE on an already-deleted
identifier answers session-not-found both times; with a present identifier
it removes the session and reports success. -/
theorem keC9_deleteSession (sessions : SessionMap) (sid : String) :
    (handleDelete sessions ""
        = (sessions, { status := 400, sessionHeader := none,
                       body := .bareError (-32002) "Session ID required" })) ∧
    (sid ≠ "" → hasSession sessions sid = false →
      handleDelete sessions sid
        = (sessions, { status := 404, sessionHeader := none,
                       body := .bareError (-32000) "Session not found" })) ∧
    (sid ≠ "" → hasSession sessions sid = true →
      handleDelete sessions sid
        = (deleteSession sessions sid,
            { status := 200, sessionHeader := none,
              body := .okStatus "Session terminated successfully" })
      ∧ hasSession (deleteSession sessions sid) sid = false) ∧
    (sid ≠ "" → hasSession sessions sid = false →
      handleDelete (handleDelete sessions sid).1 sid
        = (sessions, { status := 404, sessionHeader := none,
                       body := .bareError (-32000) "Session not found" })) := by
  have hnf : sid ≠ "" → hasSession sessions sid = false →
      handleDelete sessions sid
        = (sessions, { status := 404, sessionHeader := none,
                       body := .bareError (-32000) "Session not found" }) := by
    intro h1 h2
    unfold handleDelete
    rw [if_neg h1, if_neg (by simp [h2])]
  refine ⟨?_, hnf, ?_, ?_⟩
  · unfold handleDelete
    rw [if_pos rfl]
  · intro h1 h2
    refine ⟨?_, hasSession_deleteSession sessions sid⟩
    unfold handleDelete
    rw [if_neg h1, if_pos h2]
  · intro h1 h2
    rw [hnf h1 h2]
    exact hnf h1 h2

/-- Witness for C9 on a concrete map: delete succeeds once, then the
repeated delete answers not-found twice. -/
theorem keC9_witness :
    (handleDelete [("a", 3)] "a"
      = ([], { status := 200, sessionHeader := none,
               body := .okStatus "Session terminated successfully" }))
    ∧ (handleDelete [] "a"
      = ([], { status := 404, sessionHeader := none,
               body := .bareError (-32000) "Session not found" }))
    ∧ (handleDelete (handleDelete [] "a").1 "a"
      = ([], { status := 404, sessionHeader := none,
               body := .bareError (-32000) "Session not found" }))
    ∧ (handleDelete [] ""
      = ([], { status := 400, sessionHeader := none,
               body := .bareError (-32002) "Session ID required" })) := by
  have h := keC9_deleteSession [("a", 3)] "a"
  have h2 := keC9_deleteSession ([] : SessionMap) "a"
  refine ⟨?_, h2.2.1 (by decide) (by decide), h2.2.2.2 (by decide) (by decide),
    h2.1⟩
  have := (h.2.2.1 (by decide) (by decide)).1
  simpa [deleteSession] using this

/-- C2 fails on the code in two ways.  First, when the handler of a
registered tool raises a failure during an invoke request, the response
is a JSON-RPC protocol-level error (code -32603), not a successful
envelope flagged with isError.  Second, the tool name constructor is not
in the registry, yet the plain-object lookups TOOLS[name] and
handlers[name] find the member inherited from Object.prototype, so both
not-found checks are skipped and the tools/call returns a success
envelope instead of the -32601 tool-not-found error the claim asserts. -/
theorem keC2_counterexample :
    (processMcpRequest execBoom
        { id := ReqId.num 7, method := "invoke", toolName := "get_credits" }
      = some (mkError (ReqId.num 7) (-32603) "boom")
    ∧ (mkError (ReqId.num 7) (-32603) "boom").payload.isProtocolError = true)
    ∧ (findTool "constructor" = none
    ∧ processMcpRequest exec0
        { id := ReqId.num 9, method := "tools/call", toolName := "constructor" }
      = some (mkResult (ReqId.num 9) (.toolContent "ok" none))
    ∧ (mkResult (ReqId.num 9) (.toolContent "ok" none)).payload.isProtocolError
      = false) := by
  exact ⟨⟨by decide, rfl⟩, by decide, by decide, rfl⟩

/-- C2 (amended): on tools/call and invoke, a tool name whose lookup is
falsy — neither registered nor inherited from Object.prototype — answers
the -32601 tool-not-found error; a name whose lookup is truthy (a
registered tool, or an inherited prototype member invoked in place of a
handler) proceeds to execution, and an execution failure is reported on
tools/call as a successful envelope whose content carries the error text
with isError true, but on invoke as a JSON-RPC protocol-level error with
code -32603. -/
theorem keC2_toolFailureHandling (exec : String → ToolOutcome) (id : ReqId)
    (name msg text : String) (hid : ¬(id = ReqId.undef ∨ id = ReqId.jnull)) :
    (toolLookupTruthy name = false →
      processMcpRequest exec { id := id, method := "tools/call", toolName := name }
        = some (mkError id (-32601) ("Tool not found: " ++ name))
      ∧ processMcpRequest exec { id := id, method := "invoke", toolName := name }
        = some (mkError id (-32601) ("Tool not found: " ++ name))) ∧
    (toolLookupTruthy name = true → exec name = .fail msg →
      processMcpRequest exec { id := id, method := "tools/call", toolName := name }
        = some (mkResult id (.toolContent ("Error: " ++ msg) (some true)))) ∧
    (toolLookupTruthy name = true → exec name = .ok text →
      processMcpRequest exec { id := id, method := "tools/call", toolName := name }
        = some (mkResult id (.toolContent text none))) ∧
    (toolLookupTruthy name = true → exec name = .fail msg →
      processMcpRequest exec { id := id, method := "invoke", toolName := name }
        = some (mkError id (-32603) msg)) := by
  refine ⟨?_, ?_, ?_, ?_⟩
  · intro htr
    constructor <;>
      (unfold processMcpRequest ;
       dsimp only ;
       rw [if_neg hid, if_neg (by decide), if_neg (by decide)])
    · rw [if_pos rfl, if_pos htr]
    · rw [if_neg (by decide), if_pos rfl, if_pos htr]
  · intro htr hexec
    have hh : handlerLookupTruthy name = true := by
      rw [← toolLookupTruthy_eq]
      exact htr
    unfold processMcpRequest
    dsimp only
    rw [if_neg hid, if_neg (by decide), if_neg (by decide), if_pos rfl,
      if_neg (by simp [htr]), if_neg (by simp [hh]), hexec]
  · intro htr hexec
    have hh : handlerLookupTruthy name = true := by
      rw [← toolLookupTruthy_eq]
      exact htr
    unfold processMcpRequest
    dsimp only
    rw [if_neg hid, if_neg (by decide), if_neg (by decide), if_pos rfl,
      if_neg (by simp [htr]), if_neg (by simp [hh]), hexec]
  · intro htr hexec
    have hh : handlerLookupTruthy name = true := by
      rw [← toolLookupTruthy_eq]
      exact htr
    unfold processMcpRequest
    dsimp only
    rw [if_neg hid, if_neg (by decide), if_neg (by decide), if_neg (by decide),
      if_pos rfl, if_neg (by simp [htr]), if_neg (by simp [hh]), hexec]

/-- Witness for C2 (amended) at an unknown tool name, at a registered
tool whose handler fails, and at a prototype-inherited name whose
execution fails. -/
theorem keC2_witness :
    processMcpRequest execBoom
        { id := ReqId.num 2, method := "tools/call", toolName := "no_such_tool" }
      = some (mkError (ReqId.num 2) (-32601) "Tool not found: no_such_tool")
    ∧ processMcpRequest execBoom
        { id := ReqId.num 2, method := "tools/call", toolName := "get_credits" }
      = some (mkResult (ReqId.num 2) (.toolContent "Error: boom" (some true)))
    ∧ processMcpRequest execBoom
        { id := ReqId.num 2, method := "tools/call", toolName := "toString" }
      = some (mkResult (ReqId.num 2) (.toolContent "Error: boom" (some true))) := by
  have h := keC2_toolFailureHandling execBoom (ReqId.num 2) "no_such_tool" "boom" "ok"
    (by decide)
  have h2 := keC2_toolFailureHandling execBoom (ReqId.num 2) "get_credits" "boom" "ok"
    (by decide)
  have h3 := keC2_toolFailureHandling execBoom (ReqId.num 2) "toString" "boom" "ok"
    (by decide)
  exact ⟨(h.1 (by decide)).1, h2.2.1 (by decide) rfl, h3.2.1 (by decide) rfl⟩

/-- C4: a notification (identifier undefined or null) produces no
response: a single notification answers HTTP 202 with an empty body, and
in a batch a notification contributes nothing to the output array, which
is the ordered sequence of the responses of the non-notification
requests; in particular a batch of three requests whose second is a
notification yields exactly the two responses of the first and third
requests, in that order. -/
theorem keC4_batchNotifications (exec : String → ToolOutcome) (sid : String)
    (r r1 r2 r3 : Request) (rs1 rs2 : List Request) :
    ((r.id = ReqId.undef ∨ r.id = ReqId.jnull) →
      dispatchBody exec sid (.single r)
        = { status := 202,
            sessionHeader := if r.method = "initialize" then some sid else none,
            body := .empty }) ∧
    ((r.id = ReqId.undef ∨ r.id = ReqId.jnull) →
      (rs1 ++ r :: rs2).filterMap (processMcpRequest exec)
        = (rs1 ++ rs2).filterMap (processMcpRequest exec)) ∧
    ((dispatchBody exec sid (.batch rs1)).body
        = .envelopes (rs1.filterMap (processMcpRequest exec))) ∧
    (¬(r1.id = ReqId.undef ∨ r1.id = ReqId.jnull) →
      (r2.id = ReqId.undef ∨ r2.id = ReqId.jnull) →
      ¬(r3.id = ReqId.undef ∨ r3.id = ReqId.jnull) →
      ∃ e1 e3, processMcpRequest exec r1 = some e1
        ∧ processMcpRequest exec r3 = some e3
        ∧ [r1, r2, r3].filterMap (processMcpRequest exec) = [e1, e3]) := by
  have hnone : ∀ q : Request, (q.id = ReqId.undef ∨ q.id = ReqId.jnull) →
      processMcpRequest exec q = none := by
    intro q hq
    unfold processMcpRequest
    rw [if_pos hq]
  refine ⟨?_, ?_, rfl, ?_⟩
  · intro h
    unfold dispatchBody
    dsimp only
    rw [hnone r h]
  · intro h
    simp [List.filterMap_append, List.filterMap_cons, hnone r h]
  · intro h1 h2 h3
    obtain ⟨e1, he1, -, -⟩ := processMcpRequest_some exec r1 h1
    obtain ⟨e3, he3, -, -⟩ := processMcpRequest_some exec r3 h3
    exact ⟨e1, e3, he1, he3,
      by simp [List.filterMap_cons, he1, he3, hnone r2 h2]⟩

/-- Witness for C4 on a concrete three-request batch whose second request
is a notification. -/
theorem keC4_witness :
    dispatchBody exec0 "s"
        (.single { id := ReqId.jnull, method := "ping", toolName := "" })
      = { status := 202, sessionHeader := none, body := .empty }
    ∧ (∃ e1 e3,
        processMcpRequest exec0
          { id := ReqId.num 1, method := "tools/list", toolName := "" } = some e1
        ∧ processMcpRequest exec0
            { id := ReqId.num 3, method := "tools/list", toolName := "" } = some e3
        ∧ [ { id := ReqId.num 1, method := "tools/list", toolName := "" },
            { id := ReqId.jnull, method := "ping", toolName := "" },
            ({ id := ReqId.num 3, method := "tools/list", toolName := "" } : Request)
          ].filterMap (processMcpRequest exec0) = [e1, e3]) := by
  have h := keC4_batchNotifications exec0 "s"
    { id := ReqId.jnull, method := "ping", toolName := "" }
    { id := ReqId.num 1, method := "tools/list", toolName := "" }
    { id := ReqId.jnull, method := "ping", toolName := "" }
    { id := ReqId.num 3, method := "tools/list", toolName := "" }
    [] []
  refine ⟨?_, h.2.2.2 (by decide) (Or.inr rfl) (by decide)⟩
  have h202 := h.1 (Or.inr rfl)
  simpa using h202

/-- C8 fails on the code: a non-notification request (identifier 1) whose
session identifier is unknown answers with a bare error object that is
not a JSON-RPC envelope at all: it carries neither the protocol marker
nor the echoed identifier. -/
theorem keC8_counterexample :
    (handlePost exec0 "s1" 5 [] "" "deadbeef"
        (.single { id := ReqId.num 1, method := "tools/list", toolName := "" })).2.body
      = .bareError (-32000) "Session not found"
    ∧ ((handlePost exec0 "s1" 5 [] "" "deadbeef"
        (.single { id := ReqId.num 1, method := "tools/list", toolName := "" })).2.body).isJsonRpcEnvelope
      = false := by
  exact ⟨by decide, by decide⟩

/-- C8 (amended): every non-notification request that reaches method
dispatch gets exactly one envelope with the protocol marker and its
identifier echoed back unchanged, and the unsupported-protocol-version
error is likewise a full envelope; but the session-not-found and
session-required outcomes answer with a bare error object (code and
message only), without the protocol marker or the identifier. -/
theorem keC8_envelopeShape (exec : String → ToolOutcome) (fresh : String) (now : Nat)
    (sessions : SessionMap) (pv sid : String) (r : Request)
    (h : ¬(r.id = ReqId.undef ∨ r.id = ReqId.jnull)) :
    (∃ e, processMcpRequest exec r = some e ∧ e.jsonrpc = "2.0" ∧ e.id = r.id) ∧
    (pv ≠ "" → ¬ ("2025-".data.isPrefixOf pv.data) →
      (handlePost exec fresh now sessions pv sid (.single r)).2.body
        = .envelope (mkError r.id (-32600) ("Unsupported protocol version: " ++ pv))) ∧
    (sid ≠ "" → hasSession sessions sid = true →
      ∃ e, (handlePost exec fresh now sessions "" sid (.single r)).2.body = .envelope e
        ∧ e.jsonrpc = "2.0" ∧ e.id = r.id) ∧
    (sid ≠ "" → hasSession sessions sid = false →
      (handlePost exec fresh now sessions "" sid (.single r)).2.body
        = .bareError (-32000) "Session not found") ∧
    (sid = "" → r.method ≠ "initialize" →
      (handlePost exec fresh now sessions "" sid (.single r)).2.body
        = .bareError (-32002) "Session ID required") := by
  refine ⟨processMcpRequest_some exec r h, ?_, ?_, ?_, ?_⟩
  · intro h1 h2
    rw [handlePost_rejected exec fresh now sessions pv sid (.single r) h1 h2]
    rfl
  · intro h1 h2
    obtain ⟨e, he, hj, hi⟩ := processMcpRequest_some exec r h
    refine ⟨e, ?_, hj, hi⟩
    rw [handlePost_accepted exec fresh now sessions "" sid (.single r) (Or.inl rfl),
      handleResolved_known exec fresh now sessions sid (.single r) h1 h2]
    dsimp only
    rw [dispatchBody_single_some exec sid r e he]
  · intro h1 h2
    rw [handlePost_accepted exec fresh now sessions "" sid (.single r) (Or.inl rfl),
      handleResolved_notFound exec fresh now sessions sid (.single r) h1 h2]
  · intro h1 h2
    rw [handlePost_accepted exec fresh now sessions "" sid (.single r) (Or.inl rfl),
      handleResolved_required exec fresh now sessions sid (.single r) h1 h2]

/-- Witness for C8 (amended) on a concrete request against each error
outcome. -/
theorem keC8_witness :
    (∃ e, processMcpRequest exec0
        { id := ReqId.num 1, method := "tools/list", toolName := "" } = some e
      ∧ e.jsonrpc = "2.0" ∧ e.id = ReqId.num 1)
    ∧ ((handlePost exec0 "s1" 5 [] "1.0" ""
        (.single { id := ReqId.num 1, method := "tools/list", toolName := "" })).2.body
      = .envelope (mkError (ReqId.num 1) (-32600) "Unsupported protocol version: 1.0"))
    ∧ ((handlePost exec0 "s1" 5 [] "" ""
        (.single { id := ReqId.num 1, method := "tools/list", toolName := "" })).2.body
      = .bareError (-32002) "Session ID required") := by
  have h := keC8_envelopeShape exec0 "s1" 5 [] "1.0" ""
    { id := ReqId.num 1, method := "tools/list", toolName := "" } (by decide)
  have h2 := keC8_envelopeShape exec0 "s1" 5 [] "" ""
    { id := ReqId.num 1, method := "tools/list", toolName := "" } (by decide)
  exact ⟨h.1, h.2.1 (by decide) (by decide), h2.2.2.2.2 rfl (by decide)⟩

end KE
